import Mathlib

/-!
Shallow embedding of the esbuild-plugin-cpp repository (src/index.js) and
verification of its specification.

The plugin is a thin wrapper: it builds a command-line argument list from a
configured list of macro names, invokes the external preprocessor binary as a
subprocess, and adapts the captured standard output into the load-result shape
expected by the host build tool.

Modelling notes on the host-language semantics that the source relies on:
the `options` array built on line 12 of src/index.js is heterogeneous, since
the whole `predefineNamesOptions` array is placed as a single element (it is
not spread); the promisified `execFile` rejects exactly when the executable
cannot be spawned or the subprocess exits with a non-zero status, and resolves
with both captured streams on a zero exit status regardless of what was
written to the error stream.
-/

/-- An element of the JavaScript `options` array built on line 12 of
src/index.js.  JavaScript arrays are heterogeneous and the code places the
whole `predefineNamesOptions` array as one element, so an element is either a
string or a nested array of strings. -/
inductive Arg where
  | str (s : String)
  | arr (ss : List String)
  deriving DecidableEq

/-- Line 7 of src/index.js: `predefineNames.map((name) => \x7b backtick -D
space name space backtick \x7d)`, that is, each configured name becomes the
single string "-D " ++ name ++ " " with a trailing space. -/
def predefineNamesOptions (predefineNames : List String) : List String :=
  predefineNames.map (fun name => "-D " ++ name ++ " ")

/-- Line 12 of src/index.js: the argument array handed to `execFile`.  The
test `predefineNamesOptions.length ?` is JavaScript truthiness on the array
length; in the truthy branch the mapped array appears as one nested element
between the suppression flag and the path. -/
def options (predefineNames : List String) (path : String) : List Arg :=
  if (predefineNamesOptions predefineNames).length ≠ 0 then
    [Arg.str "-P", Arg.arr (predefineNamesOptions predefineNames), Arg.str path]
  else
    [Arg.str "-P", Arg.str path]

/-- The observable outcome of attempting to spawn the external preprocessor:
either the executable is not found on the execution path, or the subprocess
runs to completion with an exit code and captured output and error streams. -/
inductive SpawnOutcome where
  | notFound
  | exited (code : Nat) (stdout : String) (stderr : String)
  deriving DecidableEq

/-- The rejection value of the promisified `execFile`: a spawn failure, or a
non-zero exit carrying the exit code and both captured streams. -/
inductive ExecError where
  | notFound
  | nonZeroExit (code : Nat) (stdout : String) (stderr : String)
  deriving DecidableEq

/-- Node's promisified `execFile`, as used on line 13 of src/index.js: it
rejects when the executable cannot be spawned or the subprocess exits with a
non-zero status, and otherwise resolves with the pair of captured streams.
Error-stream output alone does not cause a rejection. -/
def execFileP : SpawnOutcome → Except ExecError (String × String)
  | SpawnOutcome.notFound => Except.error ExecError.notFound
  | SpawnOutcome.exited code out err =>
      if code = 0 then Except.ok (out, err)
      else Except.error (ExecError.nonZeroExit code out err)

/-- The object returned by the load callback on lines 14 to 17 of
src/index.js: it has exactly the two fields `contents` and `loader`. -/
structure LoadResult where
  contents : String
  loader : String
  deriving DecidableEq

/-- Lines 11 to 18 of src/index.js: the load callback.  The subprocess is
modelled as an injected capability `exec` mapping the argument list to a spawn
outcome.  The callback awaits `execFile`, destructures only `stdout`, and
returns it as `contents` with the fixed loader tag; a rejection propagates
out of the async function unhandled. -/
def onLoad (exec : List Arg → SpawnOutcome) (predefineNames : List String)
    (path : String) : Except ExecError LoadResult :=
  match execFileP (exec (options predefineNames path)) with
  | Except.error e => Except.error e
  | Except.ok r => Except.ok { contents := r.1, loader := "js" }

/-- Whether a load-callback result is a failure propagated to the host. -/
def loadFails (r : Except ExecError LoadResult) : Bool :=
  match r with
  | Except.error _ => true
  | Except.ok _ => false

/-- Regular expressions over characters, enough to express the filter regex
of src/index.js line 11 with standard semantics.  `anyChar` is the dot, which
in the host language matches any character except a line terminator. -/
inductive Regex where
  | emp
  | eps
  | chr (c : Char)
  | anyChar
  | cat (a b : Regex)
  | alt (a b : Regex)
  | star (a : Regex)

/-- Whether a regular expression accepts the empty string. -/
def Regex.nullable : Regex → Bool
  | Regex.emp => false
  | Regex.eps => true
  | Regex.chr _ => false
  | Regex.anyChar => false
  | Regex.cat a b => a.nullable && b.nullable
  | Regex.alt a b => a.nullable || b.nullable
  | Regex.star _ => true

/-- Brzozowski derivative of a regular expression by one character. -/
def Regex.deriv (c : Char) : Regex → Regex
  | Regex.emp => Regex.emp
  | Regex.eps => Regex.emp
  | Regex.chr d => if c = d then Regex.eps else Regex.emp
  | Regex.anyChar => if c = '\n' then Regex.emp else Regex.eps
  | Regex.cat a b =>
      if a.nullable then Regex.alt (Regex.cat (a.deriv c) b) (b.deriv c)
      else Regex.cat (a.deriv c) b
  | Regex.alt a b => Regex.alt (a.deriv c) (b.deriv c)
  | Regex.star a => Regex.cat (a.deriv c) (Regex.star a)

/-- Whether the regular expression matches some prefix of the character
list. -/
def Regex.matchesPrefix : Regex → List Char → Bool
  | r, [] => r.nullable
  | r, c :: rest => r.nullable || (r.deriv c).matchesPrefix rest

/-- Unanchored search: whether the regular expression matches starting at
some position of the character list. -/
def regexSearch (r : Regex) : List Char → Bool
  | [] => r.matchesPrefix []
  | c :: rest => r.matchesPrefix (c :: rest) || regexSearch r rest

/-- The test method of a host-language regular expression: true when the
pattern matches somewhere in the string (unanchored). -/
def Regex.test (r : Regex) (s : String) : Bool :=
  regexSearch r s.toList

/-- The filter regex of the single onLoad registration, src/index.js line 11:
dot star. -/
def loadFilter : Regex := Regex.star Regex.anyChar

/-- The object passed to the load callback by the host; the code reads only
its `path` field. -/
structure OnLoadArgs where
  path : String

/-- One onLoad registration held by the host: the filter it was registered
with and the callback, here parametrised by the subprocess capability. -/
structure OnLoadRegistration where
  filter : Regex
  callback : OnLoadArgs → (List Arg → SpawnOutcome) → Except ExecError LoadResult

/-- The build-host registration object: the state accumulated by calls to its
onLoad method. -/
structure Build where
  onLoadRegs : List OnLoadRegistration

/-- The plugin descriptor returned by the factory: a name and a setup
routine. -/
structure Plugin where
  name : String
  setup : Build → Build

/-- Lines 6 to 21 of src/index.js: the factory `cppPlugin`.  It takes the
macro-name list with default value the empty array, and returns the plugin
object whose setup routine performs exactly one onLoad registration with the
dot-star filter.  In this embedding it is a total pure function into
`Plugin`: construction performs no effect and cannot fail. -/
def cppPlugin (predefineNames : List String := []) : Plugin :=
  { name := "cppPlugin"
    setup := fun build =>
      { build with
          onLoadRegs := build.onLoadRegs ++
            [{ filter := loadFilter
               callback := fun a exec => onLoad exec predefineNames a.path }] } }

/-- Calling the factory with no argument, so that the default parameter
applies. -/
def cppPluginNoArg : Plugin := cppPlugin

/-- The closure state captured by the factory: line 7 runs the map method,
which allocates a fresh array of flag strings; this array is the only
configuration the onLoad callback later reads. -/
structure PluginClosure where
  predefineNamesOptions : List String

/-- Construction of the closure state: evaluating line 7 on the value the
caller passed at construction time. -/
def constructClosure (predefineNames : List String) : PluginClosure :=
  { predefineNamesOptions :=
      predefineNames.map (fun name => "-D " ++ name ++ " ") }

/-- Line 12 as a function of the closure state: it reads only the captured
`predefineNamesOptions` array and the per-event path. -/
def closureOptions (cl : PluginClosure) (path : String) : List Arg :=
  if cl.predefineNamesOptions.length ≠ 0 then
    [Arg.str "-P", Arg.arr cl.predefineNamesOptions, Arg.str path]
  else
    [Arg.str "-P", Arg.str path]

/-- The flag strings consulted by a load event.  The callback closes over the
fresh array produced by map at construction; the current value of the caller
variable `currentCallerArray` is not consulted at load time, which is what
makes mutation of the caller array after construction invisible to loads. -/
def flagsUsedAtLoad (cl : PluginClosure) (currentCallerArray : List String) :
    List String :=
  cl.predefineNamesOptions

/-- The predefine-flag entries of an options array: the nested-array
elements, leaving out the plain string entries. -/
def predefineEntries (opts : List Arg) : List (List String) :=
  opts.filterMap (fun a =>
    match a with
    | Arg.arr ss => some ss
    | Arg.str _ => none)

/-- The dot-star filter accepts a prefix of every character list, because a
star is nullable. -/
theorem loadFilter_matchesPrefix (cs : List Char) :
    loadFilter.matchesPrefix cs = true := by
  cases cs <;> simp [Regex.matchesPrefix, Regex.nullable, loadFilter]

/-- The dot-star filter test is true on every string. -/
theorem loadFilter_test (s : String) : loadFilter.test s = true := by
  unfold Regex.test
  cases h : s.toList with
  | nil => simp [regexSearch, loadFilter_matchesPrefix]
  | cons c rest => simp [regexSearch, loadFilter_matchesPrefix]

/-- C3: for an empty configured macro-name list, the argument list passed to
the external preprocessor contains only the suppression flag and the file
path, with no predefine flags. -/
theorem c3_empty_list_options (path : String) :
    options [] path = [Arg.str "-P", Arg.str path] := rfl

/-- C1, evaluation at the failing input: with configured names ["A", "B"] and
path "f.js" the code builds a three-element argument list whose middle element
is the whole mapped array nested as one entry (each mapped string carrying a
trailing space), not two separate predefine entries.  The claimed shape, four
entries with separate predefine flags, is therefore not produced. -/
theorem c1_options_at_failing_input :
    options ["A", "B"] "f.js"
      = [Arg.str "-P", Arg.arr ["-D A ", "-D B "], Arg.str "f.js"] := rfl

/-- C2: if the subprocess invocation fails, because the executable is not
found or the subprocess exits with a non-zero status, the load callback
returns the propagated error for that module and never an ok result. -/
theorem c2_failure_propagates (exec : List Arg → SpawnOutcome)
    (predefineNames : List String) (path : String) :
    (exec (options predefineNames path) = SpawnOutcome.notFound →
      onLoad exec predefineNames path = Except.error ExecError.notFound) ∧
    (∀ code out err,
      exec (options predefineNames path) = SpawnOutcome.exited code out err →
      code ≠ 0 →
      onLoad exec predefineNames path
        = Except.error (ExecError.nonZeroExit code out err)) := by
  constructor
  · intro h
    simp [onLoad, h, execFileP]
  · intro code out err h hc
    simp [onLoad, h, execFileP, hc]

/-- Witness for C2 at concrete inputs: a missing executable and an exit status
of one both surface as load failures. -/
theorem c2_failure_propagates_witness :
    onLoad (fun _ => SpawnOutcome.notFound) [] "a.js"
        = Except.error ExecError.notFound ∧
    onLoad (fun _ => SpawnOutcome.exited 1 "" "boom") [] "b.js"
        = Except.error (ExecError.nonZeroExit 1 "" "boom") :=
  ⟨(c2_failure_propagates (fun _ => SpawnOutcome.notFound) [] "a.js").1 rfl,
   (c2_failure_propagates (fun _ => SpawnOutcome.exited 1 "" "boom") []
      "b.js").2 1 "" "boom" rfl (by decide)⟩

/-- C4: for every load event whose subprocess exits with status zero, the
returned result pairs the captured standard output as `contents` with the
fixed loader tag "js", regardless of input content or configuration. -/
theorem c4_success_result (exec : List Arg → SpawnOutcome)
    (predefineNames : List String) (path out err : String) :
    exec (options predefineNames path) = SpawnOutcome.exited 0 out err →
    onLoad exec predefineNames path
      = Except.ok { contents := out, loader := "js" } := by
  intro h
  simp [onLoad, h, execFileP]

/-- Witness for C4 at a concrete input: a zero-exit run with output "content"
yields exactly that text as contents with the loader tag "js". -/
theorem c4_success_result_witness :
    onLoad (fun _ => SpawnOutcome.exited 0 "content" "") ["DEBUG"] "a.js"
      = Except.ok { contents := "content", loader := "js" } :=
  c4_success_result (fun _ => SpawnOutcome.exited 0 "content" "") ["DEBUG"]
    "a.js" "content" "" rfl

/-- C5 counterexample: a subprocess run that writes warning text to its error
stream but exits with status zero does not fail the load; the callback
returns an ok result, contradicting the claim that such an invocation fails
and propagates as a load failure. -/
theorem c5_stderr_zero_exit_counterexample :
    onLoad (fun _ => SpawnOutcome.exited 0 "out" "warning: unused") [] "f.js"
      = Except.ok { contents := "out", loader := "js" } := rfl

/-- C5 amended: a load fails exactly when the subprocess is not found or
exits with a non-zero status; error-stream output with a zero exit status
does not fail the load. -/
theorem c5_amended_failure_iff (exec : List Arg → SpawnOutcome)
    (predefineNames : List String) (path : String) :
    loadFails (onLoad exec predefineNames path) = true ↔
      (exec (options predefineNames path) = SpawnOutcome.notFound ∨
       ∃ code out err,
         exec (options predefineNames path) = SpawnOutcome.exited code out err
           ∧ code ≠ 0) := by
  cases h : exec (options predefineNames path) with
  | notFound => simp [onLoad, execFileP, h, loadFails]
  | exited code out err =>
      by_cases hc : code = 0 <;>
        simp [onLoad, execFileP, h, hc, loadFails]

/-- C6 counterexample: on a zero-exit run the callback returns exactly the
same result whether or not warning text was written to the error stream, and
the result type has only the `contents` and `loader` fields; the warning text
is therefore discarded, not surfaced through any diagnostic channel. -/
theorem c6_warning_discarded_counterexample :
    onLoad (fun _ => SpawnOutcome.exited 0 "out" "warning: W") [] "f.js"
      = onLoad (fun _ => SpawnOutcome.exited 0 "out" "") [] "f.js" := rfl

/-- C6 amended: when the subprocess emits warning text on its error stream
but exits with status zero, the load does not fail, and the warning text is
discarded: the returned result is independent of the error-stream text and
carries no diagnostic field. -/
theorem c6_amended_warning_dropped (predefineNames : List String)
    (path out err : String) :
    onLoad (fun _ => SpawnOutcome.exited 0 out err) predefineNames path
        = Except.ok { contents := out, loader := "js" } ∧
    onLoad (fun _ => SpawnOutcome.exited 0 out err) predefineNames path
        = onLoad (fun _ => SpawnOutcome.exited 0 out "") predefineNames path := by
  constructor <;> simp [onLoad, execFileP]

/-- C7: for every macro-name list, construction returns a plugin descriptor
with the fixed name and a setup routine; in the embedding `cppPlugin` is a
total pure function into `Plugin`, so construction performs no effect and
cannot fail, and the setup routine it exposes performs exactly one
registration when run. -/
theorem c7_construction_pure (predefineNames : List String) :
    (cppPlugin predefineNames).name = "cppPlugin" ∧
    ∀ build : Build,
      ((cppPlugin predefineNames).setup build).onLoadRegs.length
        = build.onLoadRegs.length + 1 := by
  refine ⟨rfl, fun build => ?_⟩
  simp [cppPlugin]

/-- C8: for every build object, the setup routine registers exactly one load
callback, appended to the existing registrations, and its filter matches
every path. -/
theorem c8_setup_registers_matchall (predefineNames : List String)
    (build : Build) :
    ((cppPlugin predefineNames).setup build).onLoadRegs
        = build.onLoadRegs ++
          [{ filter := loadFilter
             callback := fun a exec => onLoad exec predefineNames a.path }] ∧
    ∀ path : String, loadFilter.test path = true :=
  ⟨rfl, fun path => loadFilter_test path⟩

/-- C9: the flag list derived from the configured macro names is fixed at
construction: every load event of one plugin instance sees the same captured
flag strings, the per-event options carry the same predefine entries for
every path, and the flags consulted at load time do not depend on the
current value of the caller array, so mutating it after construction does
not change the flags used by subsequent loads. -/
theorem c9_flags_immutable (names mutated : List String) (p1 p2 : String) :
    flagsUsedAtLoad (constructClosure names) mutated
        = predefineNamesOptions names ∧
    closureOptions (constructClosure names) p1 = options names p1 ∧
    predefineEntries (closureOptions (constructClosure names) p1)
        = predefineEntries (closureOptions (constructClosure names) p2) := by
  refine ⟨rfl, rfl, ?_⟩
  unfold closureOptions
  split <;> simp [predefineEntries]

/-- C10: calling the factory with no argument is the same as calling it with
the empty macro-name list: the resulting plugin descriptors are equal, hence
their setup routines install callbacks that construct identical argument
lists and identical results for every load event. -/
theorem c10_no_arg_is_empty_list :
    cppPluginNoArg = cppPlugin [] ∧
    ∀ (build : Build) (a : OnLoadArgs) (exec : List Arg → SpawnOutcome),
      (cppPluginNoArg.setup build).onLoadRegs.map (fun r => r.callback a exec)
        = ((cppPlugin []).setup build).onLoadRegs.map
            (fun r => r.callback a exec) :=
  ⟨rfl, fun _ _ _ => rfl⟩
